import Mathlib

/-!
# Drift reconciler of the node controller

A shallow embedding of `pkg/controllers/node/drift.go` (`Drift.Reconcile`) and the
properties of it that the specification states.

The Go code mutates the node through a pointer and logs through the context; here
`Drift.Reconcile` returns the node after the call, the requeue hint, the error and the
debug messages it logged.
-/

namespace Karpenter

/-! ## Go values used by the reconciler -/

/-- Go value of type `map[string]string`. `nil` is the nil map; `made f` is an allocated
map holding the pair `(k, v)` exactly when `f k = some v`. -/
inductive GoMap where
  | nil
  | made (entries : String → Option String)

namespace GoMap

/-- Entry stored under `k`, if any. Reading a nil map finds nothing. -/
def lookup (m : GoMap) (k : String) : Option String :=
  match m with
  | nil => none
  | made f => f k

/-- Index expression `v, ok := m[k]`: the zero value `""` and `false` when the key is
missing (always so for the nil map). -/
def index (m : GoMap) (k : String) : String × Bool :=
  match m.lookup k with
  | some v => (v, true)
  | none => ("", false)

/-- Builtin `delete(m, k)`: removes the entry in place; a no-op on the nil map. -/
def delete (m : GoMap) (k : String) : GoMap :=
  match m with
  | nil => nil
  | made f => made (fun x => if x = k then none else f x)

/-- Assignment `m[k] = v` on the entries of an allocated map. -/
def store (f : String → Option String) (k v : String) : String → Option String :=
  fun x => if x = k then some v else f x

/-- Composite literal `map[string]string{k1: v1, ...}`. -/
def literal (kvs : List (String × String)) : GoMap :=
  made (kvs.foldl (fun f kv => store f kv.1 kv.2) (fun _ => none))

end GoMap

/-- Function `lo.Assign` of `github.com/samber/lo`: allocates a fresh map and copies the
entries of every argument into it, from left to right, so later maps win. -/
def lo.Assign (maps : List GoMap) : GoMap :=
  GoMap.made (maps.foldl
    (fun out m => fun k =>
      match m.lookup k with
      | some v => some v
      | none => out k)
    (fun _ => none))

/-- Go `time.Duration`: a count of nanoseconds. -/
abbrev time.Duration := Int

def time.Nanosecond : time.Duration := 1
def time.Microsecond : time.Duration := 1000 * time.Nanosecond
def time.Millisecond : time.Duration := 1000 * time.Microsecond
def time.Second : time.Duration := 1000 * time.Millisecond
def time.Minute : time.Duration := 60 * time.Second

/-- Modelled from the spec: error values returned by the cloud-provider adapter. The error
types of package `cloudprovider` are not part of the source file; the spec only requires
that a "machine not found" error is distinguishable from the others. An error carries its
message, whether its own type is the machine-not-found type, and possibly a wrapped
cause. -/
inductive GoError where
  | leaf (notFound : Bool) (msg : String)
  | wrap (notFound : Bool) (msg : String) (cause : GoError)
deriving DecidableEq, Repr

namespace GoError

/-- Method `Error()`: the message of the error. -/
def Error : GoError → String
  | leaf _ msg => msg
  | wrap _ msg _ => msg

/-- Function `errors.Unwrap`: the wrapped cause, if there is one. -/
def Unwrap : GoError → Option GoError
  | leaf _ _ => none
  | wrap _ _ cause => some cause

/-- Whether some error of the chain (the error itself, its cause, and so on) is of the
machine-not-found type; this is what `errors.As` looks for. -/
def notFoundInChain : GoError → Bool
  | leaf nf _ => nf
  | wrap nf _ cause => nf || notFoundInChain cause

end GoError

/-- Function `errors.Is` of the Go standard library: whether `err` itself, or an error
further down its chain of causes, equals `target`. -/
def errors.Is : GoError → GoError → Bool
  | GoError.leaf nf msg, target => decide (GoError.leaf nf msg = target)
  | GoError.wrap nf msg cause, target =>
    decide (GoError.wrap nf msg cause = target) || errors.Is cause target

/-- Variable `context.Canceled` of the Go standard library, the error of a cancelled
context: `errors.New("context canceled")`, which is not a machine-not-found error. -/
def context.Canceled : GoError := GoError.leaf false "context canceled"

/-- Call `fmt.Errorf(pre + "%w", err)` of the Go standard library: an error that is not
itself machine-not-found, whose message is `pre` followed by the message of `err`, and
which wraps `err`. -/
def fmt.Errorf (pre : String) (err : GoError) : GoError :=
  GoError.wrap false (pre ++ err.Error) err

/-- Modelled from the spec: `cloudprovider.IsMachineNotFoundError` is not part of the
source file. The spec asks that "machine not found" be distinguishable; the error
signifies it when an error of its chain is of that type. A nil error never does. -/
def cloudprovider.IsMachineNotFoundError (err : Option GoError) : Bool :=
  match err with
  | none => false
  | some e => e.notFoundInChain

/-- Modelled from the spec: `cloudprovider.IgnoreMachineNotFoundError` is not part of the
source file. A machine-not-found error is swallowed (becomes nil); any other error is
returned as it is. -/
def cloudprovider.IgnoreMachineNotFoundError (err : Option GoError) : Option GoError :=
  if cloudprovider.IsMachineNotFoundError err then none else err

/-! ## Cluster objects and collaborators -/

/-- Modelled from the spec: key of the label that marks a node as initialized (the
constant is declared in package `v1alpha5`, outside the source file). -/
def v1alpha5.LabelNodeInitialized : String := "NodeInitialized"

/-- Modelled from the spec: key of the annotation through which disruption controllers
coordinate (declared in package `v1alpha5`, outside the source file). -/
def v1alpha5.VoluntaryDisruptionAnnotationKey : String := "VoluntaryDisruption"

/-- Modelled from the spec: the annotation value owned by the drift reconciler (declared
in package `v1alpha5`, outside the source file). -/
def v1alpha5.VoluntaryDisruptionDriftedAnnotationValue : String := "drifted"

/-- The fields of `v1.Node` that the reconciler and the node snapshot can see. -/
structure Node where
  Name : String
  Labels : GoMap
  Annotations : GoMap

/-- The provisioner believed to own the node; `Reconcile` never reads it. -/
structure Provisioner where
  Name : String

/-- Settings carried by the context; only `DriftEnabled` is consumed. -/
structure Settings where
  DriftEnabled : Bool

/-- The reconciliation context, as far as the reconciler reads it. -/
structure Context where
  settings : Settings

/-- Accessor `settings.FromContext(ctx)`. -/
def settings.FromContext (ctx : Context) : Settings := ctx.settings

/-- Modelled from the spec: the node snapshot handed to the adapter. Its construction
(`machine.NewFromNode`) is an external helper; the snapshot is an opaque handle derived
from the node, so it is kept as the node it was taken from. -/
structure Machine where
  source : Node

/-- Modelled from the spec: `machine.NewFromNode`, see `Machine`. -/
def machine.NewFromNode (node : Node) : Machine := ⟨node⟩

/-- The cloud-provider adapter: `IsMachineDrifted(ctx, machine)` returns `(bool, error)`,
with `none` for the nil error. -/
structure CloudProvider where
  IsMachineDrifted : Context → Machine → Bool × Option GoError

/-- Type `reconcile.Result` of controller-runtime. -/
structure reconcile.Result where
  Requeue : Bool := false
  RequeueAfter : time.Duration := 0
deriving DecidableEq, Repr

/-- The reconciler. Its `kubeClient` field is not used by `Reconcile` and is left out. -/
structure Drift where
  cloudProvider : CloudProvider

/-- What one call of `Reconcile` leaves behind: the node after the call, the returned
requeue hint and error, and the debug messages logged. -/
structure Outcome where
  node : Node
  result : reconcile.Result
  err : Option GoError
  logs : List String

/-- Method `(*Drift).Reconcile` of drift.go. -/
def Drift.Reconcile (d : Drift) (ctx : Context) (_provisioner : Provisioner) (node : Node) :
    Outcome :=
  -- node is not ready yet, so we don't consider it to be drifted
  if (node.Labels.index v1alpha5.LabelNodeInitialized).1 ≠ "true" then
    ⟨node, {}, none, []⟩
  else
    -- If the node is marked as voluntarily disrupted by another controller, do nothing.
    let val := (node.Annotations.index v1alpha5.VoluntaryDisruptionAnnotationKey).1
    let hasAnnotation := (node.Annotations.index v1alpha5.VoluntaryDisruptionAnnotationKey).2
    if hasAnnotation = true ∧ val ≠ v1alpha5.VoluntaryDisruptionDriftedAnnotationValue then
      ⟨node, {}, none, []⟩
    else if (settings.FromContext ctx).DriftEnabled = false then
      if val = v1alpha5.VoluntaryDisruptionDriftedAnnotationValue then
        ⟨{ node with
            Annotations := node.Annotations.delete v1alpha5.VoluntaryDisruptionAnnotationKey },
          {}, none, ["removing drift annotation from node as drift has been disabled"]⟩
      else
        ⟨node, {}, none, []⟩
    else
      match d.cloudProvider.IsMachineDrifted ctx (machine.NewFromNode node) with
      | (_, some err) =>
        ⟨node, {},
          cloudprovider.IgnoreMachineNotFoundError
            (some (fmt.Errorf "getting drift for node, " err)), []⟩
      | (drifted, none) =>
        if drifted = false ∧ hasAnnotation = true then
          ⟨{ node with
              Annotations := node.Annotations.delete v1alpha5.VoluntaryDisruptionAnnotationKey },
            { RequeueAfter := 5 * time.Minute }, none, ["removing drift annotation from node"]⟩
        else if drifted = true ∧ hasAnnotation = false then
          ⟨{ node with
              Annotations := lo.Assign [node.Annotations,
                GoMap.literal [(v1alpha5.VoluntaryDisruptionAnnotationKey,
                  v1alpha5.VoluntaryDisruptionDriftedAnnotationValue)]] },
            { RequeueAfter := 5 * time.Minute }, none, ["annotating node as drifted"]⟩
        else
          ⟨node, { RequeueAfter := 5 * time.Minute }, none, []⟩


/-- Modelled from the spec: one reconciliation scheduled by the controller manager, which
is not part of the source file: the reconciler, the context (settings may change between
calls) and the provisioner it calls `Reconcile` with. -/
structure Call where
  drift : Drift
  ctx : Context
  provisioner : Provisioner

/-- Modelled from the spec: the controller manager reconciling one node again and again.
Each call receives the node as the previous call left it (the caller persists the in-place
changes); the outcomes of the calls are returned in order. -/
def reconcileAll : List Call → Node → List Outcome
  | [], _ => []
  | c :: cs, node =>
    (c.drift.Reconcile c.ctx c.provisioner node) ::
      reconcileAll cs (c.drift.Reconcile c.ctx c.provisioner node).node

/-! ## Concrete inputs

Nodes, contexts and adapters on which the statements below are evaluated. -/

/-- Labels of a node that has been initialized. -/
def initializedLabels : GoMap :=
  GoMap.literal [(v1alpha5.LabelNodeInitialized, "true")]

/-- An initialized node whose annotation map is nil. -/
def cleanNode : Node :=
  ⟨"node-clean", initializedLabels, GoMap.nil⟩

/-- An initialized node that carries the drifted annotation next to an unrelated one. -/
def markedNode : Node :=
  ⟨"node-marked", initializedLabels,
    GoMap.literal [("team", "infra"), (v1alpha5.VoluntaryDisruptionAnnotationKey, "drifted")]⟩

/-- An initialized node annotated by a peer controller. -/
def peerNode : Node :=
  ⟨"node-peer", initializedLabels,
    GoMap.literal [(v1alpha5.VoluntaryDisruptionAnnotationKey, "expired")]⟩

/-- A node without labels that carries the drifted annotation. -/
def unreadyMarkedNode : Node :=
  ⟨"node-unready", GoMap.literal [],
    GoMap.literal [(v1alpha5.VoluntaryDisruptionAnnotationKey, "drifted")]⟩

/-- A node whose initialization label is "True", which is not the string "true". -/
def miscasedNode : Node :=
  ⟨"node-miscased", GoMap.literal [(v1alpha5.LabelNodeInitialized, "True")],
    GoMap.literal [(v1alpha5.VoluntaryDisruptionAnnotationKey, "drifted")]⟩

def ctxEnabled : Context := ⟨⟨true⟩⟩

def ctxDisabled : Context := ⟨⟨false⟩⟩

def defaultProvisioner : Provisioner := ⟨"default"⟩

/-- A reconciler whose adapter always answers `(drifted, nil)`. -/
def driftAnswering (drifted : Bool) : Drift :=
  ⟨⟨fun _ _ => (drifted, none)⟩⟩

/-- A reconciler whose adapter always fails with `err`. -/
def driftFailing (err : GoError) : Drift :=
  ⟨⟨fun _ _ => (false, some err)⟩⟩

/-- A transient adapter error. -/
def throttled : GoError := GoError.leaf false "rate exceeded"

/-- A machine-not-found error, as the adapter returns it. -/
def machineNotFound : GoError := GoError.leaf true "machine not found"

/-- An initialized node with one unrelated annotation and no disruption annotation. -/
def teamNode : Node :=
  ⟨"node-team", initializedLabels, GoMap.literal [("team", "infra")]⟩

/-- Three reconciliations with changing settings and adapters: drift enabled with an
adapter reporting drift, drift disabled, drift enabled with a throttled adapter. -/
def mixedCalls : List Call :=
  [⟨driftAnswering true, ctxEnabled, defaultProvisioner⟩,
    ⟨driftAnswering false, ctxDisabled, defaultProvisioner⟩,
    ⟨driftFailing throttled, ctxEnabled, defaultProvisioner⟩]

/-! ## Facts about the map operations -/

open v1alpha5

theorem GoMap.index_of_lookup_some {m : GoMap} {k v : String} (h : m.lookup k = some v) :
    m.index k = (v, true) := by
  simp [GoMap.index, h]

theorem GoMap.index_of_lookup_none {m : GoMap} {k : String} (h : m.lookup k = none) :
    m.index k = ("", false) := by
  simp [GoMap.index, h]

theorem GoMap.lookup_delete (m : GoMap) (k x : String) :
    (m.delete k).lookup x = if x = k then none else m.lookup x := by
  cases m with
  | nil => simp [GoMap.delete, GoMap.lookup]
  | made f => simp [GoMap.delete, GoMap.lookup]

theorem GoMap.lookup_literal_one (k v x : String) :
    (GoMap.literal [(k, v)]).lookup x = if x = k then some v else none := by
  simp [GoMap.literal, GoMap.lookup, GoMap.store]

theorem lookup_Assign_pair (m₁ m₂ : GoMap) (x : String) :
    (lo.Assign [m₁, m₂]).lookup x =
      match m₂.lookup x with
      | some v => some v
      | none => m₁.lookup x := by
  have h : (lo.Assign [m₁, m₂]).lookup x =
      match m₂.lookup x with
      | some v => some v
      | none =>
        match m₁.lookup x with
        | some v => some v
        | none => none := rfl
  rw [h]
  cases m₂.lookup x with
  | some v => rfl
  | none => cases m₁.lookup x <;> rfl

theorem lookup_Assign_drifted (m : GoMap) (k v x : String) :
    (lo.Assign [m, GoMap.literal [(k, v)]]).lookup x =
      if x = k then some v else m.lookup x := by
  rw [lookup_Assign_pair, GoMap.lookup_literal_one]
  by_cases h : x = k <;> simp [h]

/-- Deleting a key that is not in the map leaves the map as it was. -/
theorem GoMap.delete_of_lookup_none {m : GoMap} {k : String} (h : m.lookup k = none) :
    m.delete k = m := by
  cases m with
  | nil => rfl
  | made f =>
    simp only [GoMap.delete, GoMap.made.injEq]
    funext x
    by_cases hx : x = k
    · subst hx; simpa [GoMap.lookup] using h.symm
    · simp [hx]


/-! ## The branches of `Reconcile` -/

theorem GoMap.index_fst_eq_true_iff (m : GoMap) (k : String) :
    (m.index k).1 = "true" ↔ m.lookup k = some "true" := by
  unfold GoMap.index
  cases m.lookup k with
  | none => simp
  | some v => simp

/-- Branch 1: the node is not initialized. -/
theorem Reconcile_uninitialized (d : Drift) (ctx : Context) (p : Provisioner) (node : Node)
    (hinit : node.Labels.lookup LabelNodeInitialized ≠ some "true") :
    d.Reconcile ctx p node = ⟨node, {}, none, []⟩ := by
  have h : (node.Labels.index LabelNodeInitialized).1 ≠ "true" := by
    rwa [Ne, GoMap.index_fst_eq_true_iff]
  simp [Drift.Reconcile, h]

/-- Branch 2: another controller owns the annotation. -/
theorem Reconcile_foreign (d : Drift) (ctx : Context) (p : Provisioner) (node : Node)
    (v : String)
    (hinit : node.Labels.lookup LabelNodeInitialized = some "true")
    (hval : node.Annotations.lookup VoluntaryDisruptionAnnotationKey = some v)
    (hne : v ≠ VoluntaryDisruptionDriftedAnnotationValue) :
    d.Reconcile ctx p node = ⟨node, {}, none, []⟩ := by
  have h : (node.Labels.index LabelNodeInitialized).1 = "true" :=
    (GoMap.index_fst_eq_true_iff _ _).2 hinit
  simp [Drift.Reconcile, h, GoMap.index_of_lookup_some hval, hne]

/-- Branch 3, drift disabled and the node carries the drifted annotation. -/
theorem Reconcile_disabled_marked (d : Drift) (ctx : Context) (p : Provisioner) (node : Node)
    (hinit : node.Labels.lookup LabelNodeInitialized = some "true")
    (hval : node.Annotations.lookup VoluntaryDisruptionAnnotationKey =
      some VoluntaryDisruptionDriftedAnnotationValue)
    (hoff : (settings.FromContext ctx).DriftEnabled = false) :
    d.Reconcile ctx p node =
      ⟨{ node with Annotations := node.Annotations.delete VoluntaryDisruptionAnnotationKey },
        {}, none, ["removing drift annotation from node as drift has been disabled"]⟩ := by
  have h : (node.Labels.index LabelNodeInitialized).1 = "true" :=
    (GoMap.index_fst_eq_true_iff _ _).2 hinit
  simp [Drift.Reconcile, h, GoMap.index_of_lookup_some hval, hoff]

/-- Branch 3, drift disabled and the node carries no annotation. -/
theorem Reconcile_disabled_clean (d : Drift) (ctx : Context) (p : Provisioner) (node : Node)
    (hinit : node.Labels.lookup LabelNodeInitialized = some "true")
    (hval : node.Annotations.lookup VoluntaryDisruptionAnnotationKey = none)
    (hoff : (settings.FromContext ctx).DriftEnabled = false) :
    d.Reconcile ctx p node = ⟨node, {}, none, []⟩ := by
  have h : (node.Labels.index LabelNodeInitialized).1 = "true" :=
    (GoMap.index_fst_eq_true_iff _ _).2 hinit
  have hd : ¬ ("" = VoluntaryDisruptionDriftedAnnotationValue) := by decide
  simp [Drift.Reconcile, h, GoMap.index_of_lookup_none hval, hoff, hd]

/-- Branch 4: the adapter call fails. -/
theorem Reconcile_adapter_error (d : Drift) (ctx : Context) (p : Provisioner) (node : Node)
    (b : Bool) (e : GoError)
    (hinit : node.Labels.lookup LabelNodeInitialized = some "true")
    (hval : node.Annotations.lookup VoluntaryDisruptionAnnotationKey = none ∨
      node.Annotations.lookup VoluntaryDisruptionAnnotationKey =
        some VoluntaryDisruptionDriftedAnnotationValue)
    (hon : (settings.FromContext ctx).DriftEnabled = true)
    (hcp : d.cloudProvider.IsMachineDrifted ctx (machine.NewFromNode node) = (b, some e)) :
    d.Reconcile ctx p node =
      ⟨node, {},
        cloudprovider.IgnoreMachineNotFoundError (some (fmt.Errorf "getting drift for node, " e)),
        []⟩ := by
  have h : (node.Labels.index LabelNodeInitialized).1 = "true" :=
    (GoMap.index_fst_eq_true_iff _ _).2 hinit
  rcases hval with hval | hval
  · simp [Drift.Reconcile, h, GoMap.index_of_lookup_none hval, hon, hcp]
  · simp [Drift.Reconcile, h, GoMap.index_of_lookup_some hval, hon, hcp]

/-- Branch 5, the adapter reports drift and the node carries no annotation. -/
theorem Reconcile_mark (d : Drift) (ctx : Context) (p : Provisioner) (node : Node)
    (hinit : node.Labels.lookup LabelNodeInitialized = some "true")
    (hval : node.Annotations.lookup VoluntaryDisruptionAnnotationKey = none)
    (hon : (settings.FromContext ctx).DriftEnabled = true)
    (hcp : d.cloudProvider.IsMachineDrifted ctx (machine.NewFromNode node) = (true, none)) :
    d.Reconcile ctx p node =
      ⟨{ node with
          Annotations := lo.Assign [node.Annotations,
            GoMap.literal [(VoluntaryDisruptionAnnotationKey,
              VoluntaryDisruptionDriftedAnnotationValue)]] },
        { RequeueAfter := 5 * time.Minute }, none, ["annotating node as drifted"]⟩ := by
  have h : (node.Labels.index LabelNodeInitialized).1 = "true" :=
    (GoMap.index_fst_eq_true_iff _ _).2 hinit
  simp [Drift.Reconcile, h, GoMap.index_of_lookup_none hval, hon, hcp]

/-- Branch 5, the adapter reports no drift and the node carries the drifted annotation. -/
theorem Reconcile_unmark (d : Drift) (ctx : Context) (p : Provisioner) (node : Node)
    (hinit : node.Labels.lookup LabelNodeInitialized = some "true")
    (hval : node.Annotations.lookup VoluntaryDisruptionAnnotationKey =
      some VoluntaryDisruptionDriftedAnnotationValue)
    (hon : (settings.FromContext ctx).DriftEnabled = true)
    (hcp : d.cloudProvider.IsMachineDrifted ctx (machine.NewFromNode node) = (false, none)) :
    d.Reconcile ctx p node =
      ⟨{ node with Annotations := node.Annotations.delete VoluntaryDisruptionAnnotationKey },
        { RequeueAfter := 5 * time.Minute }, none, ["removing drift annotation from node"]⟩ := by
  have h : (node.Labels.index LabelNodeInitialized).1 = "true" :=
    (GoMap.index_fst_eq_true_iff _ _).2 hinit
  simp [Drift.Reconcile, h, GoMap.index_of_lookup_some hval, hon, hcp]

/-- Branch 5, the annotation already agrees with the adapter. -/
theorem Reconcile_agree (d : Drift) (ctx : Context) (p : Provisioner) (node : Node)
    (drifted : Bool)
    (hinit : node.Labels.lookup LabelNodeInitialized = some "true")
    (hval : node.Annotations.lookup VoluntaryDisruptionAnnotationKey =
      if drifted then some VoluntaryDisruptionDriftedAnnotationValue else none)
    (hon : (settings.FromContext ctx).DriftEnabled = true)
    (hcp : d.cloudProvider.IsMachineDrifted ctx (machine.NewFromNode node) = (drifted, none)) :
    d.Reconcile ctx p node = ⟨node, { RequeueAfter := 5 * time.Minute }, none, []⟩ := by
  have h : (node.Labels.index LabelNodeInitialized).1 = "true" :=
    (GoMap.index_fst_eq_true_iff _ _).2 hinit
  cases drifted with
  | false =>
    simp at hval
    simp [Drift.Reconcile, h, GoMap.index_of_lookup_none hval, hon, hcp]
  | true =>
    simp at hval
    simp [Drift.Reconcile, h, GoMap.index_of_lookup_some hval, hon, hcp]


/-- The node after a call is the node before it, or that node with the drifted annotation
deleted, or that node with the drifted annotation inserted over an absent key. -/
theorem Reconcile_node_cases (d : Drift) (ctx : Context) (p : Provisioner) (node : Node) :
    (d.Reconcile ctx p node).node = node ∨
    (node.Annotations.lookup VoluntaryDisruptionAnnotationKey =
        some VoluntaryDisruptionDriftedAnnotationValue ∧
      (d.Reconcile ctx p node).node =
        { node with
          Annotations := node.Annotations.delete VoluntaryDisruptionAnnotationKey }) ∨
    (node.Annotations.lookup VoluntaryDisruptionAnnotationKey = none ∧
      (d.Reconcile ctx p node).node =
        { node with
          Annotations := lo.Assign [node.Annotations,
            GoMap.literal [(VoluntaryDisruptionAnnotationKey,
              VoluntaryDisruptionDriftedAnnotationValue)]] }) := by
  by_cases hinit : node.Labels.lookup LabelNodeInitialized = some "true"
  swap
  · left; rw [Reconcile_uninitialized d ctx p node hinit]
  cases hval : node.Annotations.lookup VoluntaryDisruptionAnnotationKey with
  | none =>
    cases hen : (settings.FromContext ctx).DriftEnabled with
    | false => left; rw [Reconcile_disabled_clean d ctx p node hinit hval hen]
    | true =>
      rcases hcp : d.cloudProvider.IsMachineDrifted ctx (machine.NewFromNode node) with
        ⟨drifted, err⟩
      cases err with
      | some e =>
        left; rw [Reconcile_adapter_error d ctx p node drifted e hinit (Or.inl hval) hen hcp]
      | none =>
        cases drifted with
        | false =>
          left; rw [Reconcile_agree d ctx p node false hinit (by simpa using hval) hen hcp]
        | true =>
          right; right
          exact ⟨rfl, by rw [Reconcile_mark d ctx p node hinit hval hen hcp]⟩
  | some v =>
    by_cases hv : v = VoluntaryDisruptionDriftedAnnotationValue
    swap
    · left; rw [Reconcile_foreign d ctx p node v hinit hval hv]
    subst hv
    cases hen : (settings.FromContext ctx).DriftEnabled with
    | false =>
      right; left
      exact ⟨rfl, by rw [Reconcile_disabled_marked d ctx p node hinit hval hen]⟩
    | true =>
      rcases hcp : d.cloudProvider.IsMachineDrifted ctx (machine.NewFromNode node) with
        ⟨drifted, err⟩
      cases err with
      | some e =>
        left; rw [Reconcile_adapter_error d ctx p node drifted e hinit (Or.inr hval) hen hcp]
      | none =>
        cases drifted with
        | true =>
          left; rw [Reconcile_agree d ctx p node true hinit (by simpa using hval) hen hcp]
        | false =>
          right; left
          exact ⟨rfl, by rw [Reconcile_unmark d ctx p node hinit hval hen hcp]⟩


/-- Wrapping with `fmt.Errorf` does not change whether an error signifies machine not
found: the wrapper is not of that type and the chain below it is the cause. -/
theorem IsMachineNotFoundError_Errorf (pre : String) (e : GoError) :
    cloudprovider.IsMachineNotFoundError (some (fmt.Errorf pre e)) =
      cloudprovider.IsMachineNotFoundError (some e) := by
  simp [cloudprovider.IsMachineNotFoundError, fmt.Errorf, GoError.notFoundInChain]

/-- An error found in the chain of `e` is still found after wrapping `e` with
`fmt.Errorf`. -/
theorem Is_Errorf (pre : String) (e target : GoError) (h : errors.Is e target = true) :
    errors.Is (fmt.Errorf pre e) target = true := by
  simp [fmt.Errorf, errors.Is, h]

/-- A node that is not initialized or carries a foreign annotation comes back from
`Reconcile` untouched, with the empty hint, no error and nothing logged. -/
theorem Reconcile_absorbed (d : Drift) (ctx : Context) (p : Provisioner) (node : Node)
    (hstart : node.Labels.lookup LabelNodeInitialized ≠ some "true" ∨
      ∃ v, node.Annotations.lookup VoluntaryDisruptionAnnotationKey = some v ∧
        v ≠ VoluntaryDisruptionDriftedAnnotationValue) :
    d.Reconcile ctx p node = ⟨node, {}, none, []⟩ := by
  by_cases hinit : node.Labels.lookup LabelNodeInitialized = some "true"
  · rcases hstart with h | ⟨v, hv, hne⟩
    · exact absurd hinit h
    · exact Reconcile_foreign d ctx p node v hinit hv hne
  · exact Reconcile_uninitialized d ctx p node hinit

/-- The 5-minute hint is only returned from branch 5: the node is initialized, carries no
foreign annotation, drift is enabled and the adapter call returned no error. -/
theorem Reconcile_requeue_only_after_answer (d : Drift) (ctx : Context) (p : Provisioner)
    (node : Node)
    (hhint : (d.Reconcile ctx p node).result =
      { Requeue := false, RequeueAfter := 5 * time.Minute }) :
    node.Labels.lookup LabelNodeInitialized = some "true" ∧
    (node.Annotations.lookup VoluntaryDisruptionAnnotationKey = none ∨
      node.Annotations.lookup VoluntaryDisruptionAnnotationKey =
        some VoluntaryDisruptionDriftedAnnotationValue) ∧
    (settings.FromContext ctx).DriftEnabled = true ∧
    (d.cloudProvider.IsMachineDrifted ctx (machine.NewFromNode node)).2 = none := by
  have hne : ({ Requeue := false, RequeueAfter := 0 } : reconcile.Result) ≠
      { Requeue := false, RequeueAfter := 5 * time.Minute } := by decide
  by_cases hinit : node.Labels.lookup LabelNodeInitialized = some "true"
  swap
  · rw [Reconcile_uninitialized d ctx p node hinit] at hhint
    exact absurd hhint hne
  have hval : node.Annotations.lookup VoluntaryDisruptionAnnotationKey = none ∨
      node.Annotations.lookup VoluntaryDisruptionAnnotationKey =
        some VoluntaryDisruptionDriftedAnnotationValue := by
    cases hv : node.Annotations.lookup VoluntaryDisruptionAnnotationKey with
    | none => exact Or.inl rfl
    | some v =>
      by_cases hd : v = VoluntaryDisruptionDriftedAnnotationValue
      · exact Or.inr (by rw [hd])
      · rw [Reconcile_foreign d ctx p node v hinit hv hd] at hhint
        exact absurd hhint hne
  have hon : (settings.FromContext ctx).DriftEnabled = true := by
    cases hen : (settings.FromContext ctx).DriftEnabled with
    | true => rfl
    | false =>
      rcases hval with hv | hv
      · rw [Reconcile_disabled_clean d ctx p node hinit hv hen] at hhint
        exact absurd hhint hne
      · rw [Reconcile_disabled_marked d ctx p node hinit hv hen] at hhint
        exact absurd hhint hne
  refine ⟨hinit, hval, hon, ?_⟩
  rcases hcp : d.cloudProvider.IsMachineDrifted ctx (machine.NewFromNode node) with
    ⟨drifted, err⟩
  cases err with
  | none => rfl
  | some e =>
    rw [Reconcile_adapter_error d ctx p node drifted e hinit hval hon hcp] at hhint
    exact absurd hhint hne

/-! ## Claims -/

/-- C1 (foreign immunity): when the VoluntaryDisruption annotation is present with a value
other than "drifted" (the empty string included), then for every reconciler (adapter),
every context (DriftEnabled true or false) and every provisioner, Reconcile returns the
node with all its fields, annotations and labels among them, as they were, the empty
requeue hint and no error. -/
theorem Reconcile_foreign_immunity (d : Drift) (ctx : Context) (p : Provisioner) (node : Node)
    (v : String)
    (hval : node.Annotations.lookup VoluntaryDisruptionAnnotationKey = some v)
    (hne : v ≠ "drifted") :
    (d.Reconcile ctx p node).node = node ∧
    (d.Reconcile ctx p node).node.Annotations = node.Annotations ∧
    (d.Reconcile ctx p node).node.Labels = node.Labels ∧
    (d.Reconcile ctx p node).result = { Requeue := false, RequeueAfter := 0 } ∧
    (d.Reconcile ctx p node).err = none := by
  have hout : d.Reconcile ctx p node = ⟨node, {}, none, []⟩ := by
    by_cases hinit : node.Labels.lookup LabelNodeInitialized = some "true"
    · exact Reconcile_foreign d ctx p node v hinit hval hne
    · exact Reconcile_uninitialized d ctx p node hinit
  rw [hout]
  exact ⟨rfl, rfl, rfl, rfl, rfl⟩

/-- Witness for C1: an initialized node annotated "expired" by a peer, with drift disabled
and an adapter that would report drift. -/
theorem Reconcile_foreign_immunity_witness :
    (peerNode.Annotations.lookup VoluntaryDisruptionAnnotationKey = some "expired" ∧
      "expired" ≠ "drifted") ∧
    ((driftAnswering true).Reconcile ctxDisabled defaultProvisioner peerNode).node = peerNode ∧
    ((driftAnswering true).Reconcile ctxDisabled defaultProvisioner peerNode).result =
      { Requeue := false, RequeueAfter := 0 } ∧
    ((driftAnswering true).Reconcile ctxDisabled defaultProvisioner peerNode).err = none :=
  have h := Reconcile_foreign_immunity (driftAnswering true) ctxDisabled defaultProvisioner
    peerNode "expired" (by decide) (by decide)
  ⟨⟨by decide, by decide⟩, h.1, h.2.2.2.1, h.2.2.2.2⟩

/-- C2 (initialization gate): when the NodeInitialized label is absent or is any string
other than exactly "true", then for every annotation map, every context and every adapter,
Reconcile returns the node with all its fields as they were, the empty requeue hint and no
error. -/
theorem Reconcile_initialization_gate (d : Drift) (ctx : Context) (p : Provisioner)
    (node : Node)
    (hinit : node.Labels.lookup LabelNodeInitialized ≠ some "true") :
    (d.Reconcile ctx p node).node = node ∧
    (d.Reconcile ctx p node).result = { Requeue := false, RequeueAfter := 0 } ∧
    (d.Reconcile ctx p node).err = none := by
  rw [Reconcile_uninitialized d ctx p node hinit]
  exact ⟨rfl, rfl, rfl⟩

/-- Witness for C2: a node labelled "True" (not exactly "true") that already carries the
drifted annotation, with drift enabled and an adapter reporting no drift. -/
theorem Reconcile_initialization_gate_witness :
    miscasedNode.Labels.lookup LabelNodeInitialized ≠ some "true" ∧
    ((driftAnswering false).Reconcile ctxEnabled defaultProvisioner miscasedNode).node =
      miscasedNode ∧
    ((driftAnswering false).Reconcile ctxEnabled defaultProvisioner miscasedNode).result =
      { Requeue := false, RequeueAfter := 0 } ∧
    ((driftAnswering false).Reconcile ctxEnabled defaultProvisioner miscasedNode).err = none :=
  ⟨by decide,
    Reconcile_initialization_gate (driftAnswering false) ctxEnabled defaultProvisioner
      miscasedNode (by decide)⟩


/-- C3 (ownership of the annotation): for every input, the VoluntaryDisruption annotation
after one Reconcile call is what it was before, or it was absent and is now "drifted", or
it was "drifted" and is now absent. Hence a deletion only happens to the value "drifted",
and a write only puts "drifted" under a key that was absent. -/
theorem Reconcile_annotation_ownership (d : Drift) (ctx : Context) (p : Provisioner)
    (node : Node) :
    ((d.Reconcile ctx p node).node.Annotations.lookup VoluntaryDisruptionAnnotationKey =
        node.Annotations.lookup VoluntaryDisruptionAnnotationKey ∨
      (node.Annotations.lookup VoluntaryDisruptionAnnotationKey = none ∧
        (d.Reconcile ctx p node).node.Annotations.lookup VoluntaryDisruptionAnnotationKey =
          some "drifted") ∨
      (node.Annotations.lookup VoluntaryDisruptionAnnotationKey = some "drifted" ∧
        (d.Reconcile ctx p node).node.Annotations.lookup VoluntaryDisruptionAnnotationKey =
          none)) ∧
    (∀ v, node.Annotations.lookup VoluntaryDisruptionAnnotationKey = some v →
      (d.Reconcile ctx p node).node.Annotations.lookup VoluntaryDisruptionAnnotationKey = none →
      v = "drifted") ∧
    (∀ w, (d.Reconcile ctx p node).node.Annotations.lookup VoluntaryDisruptionAnnotationKey =
        some w →
      node.Annotations.lookup VoluntaryDisruptionAnnotationKey ≠ some w →
      w = "drifted" ∧ node.Annotations.lookup VoluntaryDisruptionAnnotationKey = none) := by
  have key : (d.Reconcile ctx p node).node.Annotations.lookup VoluntaryDisruptionAnnotationKey =
        node.Annotations.lookup VoluntaryDisruptionAnnotationKey ∨
      (node.Annotations.lookup VoluntaryDisruptionAnnotationKey = none ∧
        (d.Reconcile ctx p node).node.Annotations.lookup VoluntaryDisruptionAnnotationKey =
          some "drifted") ∨
      (node.Annotations.lookup VoluntaryDisruptionAnnotationKey = some "drifted" ∧
        (d.Reconcile ctx p node).node.Annotations.lookup VoluntaryDisruptionAnnotationKey =
          none) := by
    rcases Reconcile_node_cases d ctx p node with h | ⟨hb, h⟩ | ⟨hb, h⟩
    · left; rw [h]
    · right; right
      refine ⟨hb, ?_⟩
      rw [h]; simp [GoMap.lookup_delete]
    · right; left
      refine ⟨hb, ?_⟩
      rw [h]
      simp [lookup_Assign_drifted, VoluntaryDisruptionDriftedAnnotationValue]
  refine ⟨key, ?_, ?_⟩
  · intro v hv hafter
    rcases key with h | ⟨hb, _⟩ | ⟨hb, _⟩
    · rw [hafter, hv] at h; cases h
    · rw [hv] at hb; cases hb
    · rw [hv] at hb; exact Option.some.inj hb
  · intro w hw hne
    rcases key with h | ⟨hb, ha⟩ | ⟨_, ha⟩
    · rw [hw] at h; exact absurd h.symm hne
    · rw [hw] at ha; exact ⟨Option.some.inj ha, hb⟩
    · rw [hw] at ha; cases ha


/-- C4 (annotation reconciliation): for an initialized node without a foreign annotation,
with DriftEnabled true and the adapter answering (drifted, nil): when drifted and the
annotation is absent, the annotations become the prior ones plus
VoluntaryDisruption = "drifted" (exactly that single pair from a nil or an empty map); when
not drifted and the annotation is present, they become the prior ones without that key;
otherwise they are unchanged. Name and labels stay, the hint is RequeueAfter = 5 minutes
(300000000000 ns) and the error is nil. -/
theorem Reconcile_annotation_reconciled (d : Drift) (ctx : Context) (p : Provisioner)
    (node : Node) (drifted : Bool)
    (hinit : node.Labels.lookup LabelNodeInitialized = some "true")
    (hval : node.Annotations.lookup VoluntaryDisruptionAnnotationKey = none ∨
      node.Annotations.lookup VoluntaryDisruptionAnnotationKey = some "drifted")
    (hon : (settings.FromContext ctx).DriftEnabled = true)
    (hcp : d.cloudProvider.IsMachineDrifted ctx (machine.NewFromNode node) = (drifted, none)) :
    (drifted = true → node.Annotations.lookup VoluntaryDisruptionAnnotationKey = none →
      (d.Reconcile ctx p node).node.Annotations =
        GoMap.made (fun k =>
          if k = VoluntaryDisruptionAnnotationKey then some "drifted"
          else node.Annotations.lookup k)) ∧
    (drifted = true → node.Annotations = GoMap.nil ∨ node.Annotations = GoMap.literal [] →
      (d.Reconcile ctx p node).node.Annotations =
        GoMap.literal [(VoluntaryDisruptionAnnotationKey, "drifted")]) ∧
    (drifted = false →
      node.Annotations.lookup VoluntaryDisruptionAnnotationKey = some "drifted" →
      (d.Reconcile ctx p node).node.Annotations =
        GoMap.made (fun k =>
          if k = VoluntaryDisruptionAnnotationKey then none else node.Annotations.lookup k)) ∧
    ((drifted = true ∧
        node.Annotations.lookup VoluntaryDisruptionAnnotationKey = some "drifted") ∨
      (drifted = false ∧ node.Annotations.lookup VoluntaryDisruptionAnnotationKey = none) →
      (d.Reconcile ctx p node).node.Annotations = node.Annotations) ∧
    (d.Reconcile ctx p node).node.Labels = node.Labels ∧
    (d.Reconcile ctx p node).node.Name = node.Name ∧
    (d.Reconcile ctx p node).result = { Requeue := false, RequeueAfter := 5 * time.Minute } ∧
    (d.Reconcile ctx p node).result.RequeueAfter = 300000000000 ∧
    (d.Reconcile ctx p node).err = none := by
  have hmark : drifted = true →
      node.Annotations.lookup VoluntaryDisruptionAnnotationKey = none →
      (d.Reconcile ctx p node).node.Annotations =
        GoMap.made (fun k =>
          if k = VoluntaryDisruptionAnnotationKey then some "drifted"
          else node.Annotations.lookup k) := by
    intro hd habs
    subst hd
    rw [Reconcile_mark d ctx p node hinit habs hon hcp]
    show lo.Assign _ = _
    have hl := fun x => lookup_Assign_drifted node.Annotations VoluntaryDisruptionAnnotationKey
      VoluntaryDisruptionDriftedAnnotationValue x
    simp only [lo.Assign, GoMap.lookup] at hl ⊢
    congr 1
    funext k
    exact hl k
  refine ⟨hmark, ?_, ?_, ?_, ?_⟩
  · intro hd hempty
    have habs : node.Annotations.lookup VoluntaryDisruptionAnnotationKey = none := by
      rcases hempty with h | h <;> rw [h] <;> rfl
    rw [hmark hd habs]
    simp only [GoMap.literal, List.foldl, GoMap.store, GoMap.made.injEq]
    funext k
    rcases hempty with h | h <;> rw [h] <;> rfl
  · intro hd hpres
    subst hd
    rw [Reconcile_unmark d ctx p node hinit hpres hon hcp]
    show node.Annotations.delete _ = _
    cases hm : node.Annotations with
    | nil => rw [hm] at hpres; cases hpres
    | made f => rfl
  · rintro (⟨hd, hv⟩ | ⟨hd, hv⟩)
    · subst hd
      rw [Reconcile_agree d ctx p node true hinit (by simpa using hv) hon hcp]
    · subst hd
      rw [Reconcile_agree d ctx p node false hinit (by simpa using hv) hon hcp]
  · have hres : (d.Reconcile ctx p node).node.Labels = node.Labels ∧
        (d.Reconcile ctx p node).node.Name = node.Name ∧
        (d.Reconcile ctx p node).result =
          { Requeue := false, RequeueAfter := 5 * time.Minute } ∧
        (d.Reconcile ctx p node).err = none := by
      cases drifted with
      | true =>
        rcases hval with hv | hv
        · rw [Reconcile_mark d ctx p node hinit hv hon hcp]
          exact ⟨rfl, rfl, rfl, rfl⟩
        · rw [Reconcile_agree d ctx p node true hinit (by simpa using hv) hon hcp]
          exact ⟨rfl, rfl, rfl, rfl⟩
      | false =>
        rcases hval with hv | hv
        · rw [Reconcile_agree d ctx p node false hinit (by simpa using hv) hon hcp]
          exact ⟨rfl, rfl, rfl, rfl⟩
        · rw [Reconcile_unmark d ctx p node hinit hv hon hcp]
          exact ⟨rfl, rfl, rfl, rfl⟩
    refine ⟨hres.1, hres.2.1, hres.2.2.1, ?_, hres.2.2.2⟩
    rw [hres.2.2.1]
    decide

/-- Witness for C4: scenario 1 of the specification, a fresh initialized node with nil
annotations, drift enabled and the adapter answering drifted. -/
theorem Reconcile_annotation_reconciled_witness :
    ((driftAnswering true).Reconcile ctxEnabled defaultProvisioner cleanNode).node.Annotations =
      GoMap.literal [(VoluntaryDisruptionAnnotationKey, "drifted")] ∧
    ((driftAnswering true).Reconcile ctxEnabled defaultProvisioner cleanNode).result =
      { Requeue := false, RequeueAfter := 5 * time.Minute } ∧
    ((driftAnswering true).Reconcile ctxEnabled defaultProvisioner cleanNode).err = none :=
  have h := Reconcile_annotation_reconciled (driftAnswering true) ctxEnabled defaultProvisioner
    cleanNode true (by decide) (Or.inl (by decide)) (by decide) rfl
  ⟨h.2.1 rfl (Or.inl rfl), h.2.2.2.2.2.2.1, h.2.2.2.2.2.2.2.2⟩

/-- C5 (feature disabled): for an initialized node without a foreign annotation and with
DriftEnabled false: when the annotation is "drifted" the VoluntaryDisruption key is removed
and every other annotation, the labels and the name stay; when it is absent the node is
unchanged. In both cases the hint is empty and the error nil. -/
theorem Reconcile_feature_disabled (d : Drift) (ctx : Context) (p : Provisioner)
    (node : Node)
    (hinit : node.Labels.lookup LabelNodeInitialized = some "true")
    (hval : node.Annotations.lookup VoluntaryDisruptionAnnotationKey = none ∨
      node.Annotations.lookup VoluntaryDisruptionAnnotationKey = some "drifted")
    (hoff : (settings.FromContext ctx).DriftEnabled = false) :
    (node.Annotations.lookup VoluntaryDisruptionAnnotationKey = some "drifted" →
      (d.Reconcile ctx p node).node.Annotations =
        GoMap.made (fun k =>
          if k = VoluntaryDisruptionAnnotationKey then none else node.Annotations.lookup k) ∧
      (d.Reconcile ctx p node).node.Annotations.lookup VoluntaryDisruptionAnnotationKey = none ∧
      (∀ k, k ≠ VoluntaryDisruptionAnnotationKey →
        (d.Reconcile ctx p node).node.Annotations.lookup k = node.Annotations.lookup k) ∧
      (d.Reconcile ctx p node).node.Labels = node.Labels ∧
      (d.Reconcile ctx p node).node.Name = node.Name) ∧
    (node.Annotations.lookup VoluntaryDisruptionAnnotationKey = none →
      (d.Reconcile ctx p node).node = node) ∧
    (d.Reconcile ctx p node).result = { Requeue := false, RequeueAfter := 0 } ∧
    (d.Reconcile ctx p node).err = none := by
  refine ⟨?_, ?_, ?_⟩
  · intro hpres
    rw [Reconcile_disabled_marked d ctx p node hinit hpres hoff]
    refine ⟨?_, ?_, ?_, rfl, rfl⟩
    · show node.Annotations.delete _ = _
      cases hm : node.Annotations with
      | nil => rw [hm] at hpres; cases hpres
      | made f => rfl
    · show (node.Annotations.delete _).lookup _ = _
      simp [GoMap.lookup_delete]
    · intro k hk
      show (node.Annotations.delete _).lookup _ = _
      simp [GoMap.lookup_delete, hk]
  · intro habs
    rw [Reconcile_disabled_clean d ctx p node hinit habs hoff]
  · rcases hval with hv | hv
    · rw [Reconcile_disabled_clean d ctx p node hinit hv hoff]
      exact ⟨rfl, rfl⟩
    · rw [Reconcile_disabled_marked d ctx p node hinit hv hoff]
      exact ⟨rfl, rfl⟩

/-- Witness for C5: scenario 4 of the specification, drift disabled on a node that carries
a stale drifted annotation next to an unrelated one. -/
theorem Reconcile_feature_disabled_witness :
    ((driftAnswering true).Reconcile ctxDisabled defaultProvisioner
      markedNode).node.Annotations.lookup VoluntaryDisruptionAnnotationKey = none ∧
    ((driftAnswering true).Reconcile ctxDisabled defaultProvisioner
      markedNode).node.Annotations.lookup "team" = some "infra" ∧
    ((driftAnswering true).Reconcile ctxDisabled defaultProvisioner markedNode).result =
      { Requeue := false, RequeueAfter := 0 } ∧
    ((driftAnswering true).Reconcile ctxDisabled defaultProvisioner markedNode).err = none :=
  have h := Reconcile_feature_disabled (driftAnswering true) ctxDisabled defaultProvisioner
    markedNode (by decide) (Or.inr (by decide)) (by decide)
  ⟨(h.1 (by decide)).2.1, ((h.1 (by decide)).2.2.1 "team" (by decide)).trans (by decide),
    h.2.2.1, h.2.2.2⟩


/-- C6 (adapter error surfaced): for an initialized node without a foreign annotation and
with DriftEnabled true, when the adapter returns an error that is not a machine-not-found
error, Reconcile returns an error that wraps the adapter error and whose message is
"getting drift for node, " followed by the message of the cause, returns the empty hint
and leaves the node, its annotations included, unchanged. -/
theorem Reconcile_adapter_error_surfaced (d : Drift) (ctx : Context) (p : Provisioner)
    (node : Node) (b : Bool) (e : GoError)
    (hinit : node.Labels.lookup LabelNodeInitialized = some "true")
    (hval : node.Annotations.lookup VoluntaryDisruptionAnnotationKey = none ∨
      node.Annotations.lookup VoluntaryDisruptionAnnotationKey = some "drifted")
    (hon : (settings.FromContext ctx).DriftEnabled = true)
    (hcp : d.cloudProvider.IsMachineDrifted ctx (machine.NewFromNode node) = (b, some e))
    (hother : cloudprovider.IsMachineNotFoundError (some e) = false) :
    (∃ w, (d.Reconcile ctx p node).err = some w ∧ w.Unwrap = some e ∧
      w.Error = "getting drift for node, " ++ e.Error) ∧
    (d.Reconcile ctx p node).result = { Requeue := false, RequeueAfter := 0 } ∧
    (d.Reconcile ctx p node).node = node ∧
    (d.Reconcile ctx p node).node.Annotations = node.Annotations := by
  rw [Reconcile_adapter_error d ctx p node b e hinit hval hon hcp]
  refine ⟨⟨fmt.Errorf "getting drift for node, " e, ?_, rfl, rfl⟩, rfl, rfl, rfl⟩
  simp [cloudprovider.IgnoreMachineNotFoundError, IsMachineNotFoundError_Errorf, hother]

/-- Witness for C6: a throttled adapter on a node that carries the drifted annotation. -/
theorem Reconcile_adapter_error_surfaced_witness :
    (((driftFailing throttled).Reconcile ctxEnabled defaultProvisioner markedNode).err.map
      GoError.Error = some "getting drift for node, rate exceeded") ∧
    ((driftFailing throttled).Reconcile ctxEnabled defaultProvisioner markedNode).result =
      { Requeue := false, RequeueAfter := 0 } ∧
    ((driftFailing throttled).Reconcile ctxEnabled defaultProvisioner markedNode).node =
      markedNode :=
  have h := Reconcile_adapter_error_surfaced (driftFailing throttled) ctxEnabled
    defaultProvisioner markedNode false throttled (by decide) (Or.inr (by decide)) (by decide)
    rfl (by decide)
  ⟨by decide, h.2.1, h.2.2.1⟩

/-- C7 (machine-not-found swallowed): for an initialized node without a foreign annotation
and with DriftEnabled true, when the adapter returns a machine-not-found error, Reconcile
returns a nil error and the empty hint, which is not the 5-minute hint, and leaves the
node, its annotations included, unchanged, whether the node carries the drifted annotation
or none. -/
theorem Reconcile_machine_not_found_swallowed (d : Drift) (ctx : Context) (p : Provisioner)
    (node : Node) (b : Bool) (e : GoError)
    (hinit : node.Labels.lookup LabelNodeInitialized = some "true")
    (hval : node.Annotations.lookup VoluntaryDisruptionAnnotationKey = none ∨
      node.Annotations.lookup VoluntaryDisruptionAnnotationKey = some "drifted")
    (hon : (settings.FromContext ctx).DriftEnabled = true)
    (hcp : d.cloudProvider.IsMachineDrifted ctx (machine.NewFromNode node) = (b, some e))
    (hgone : cloudprovider.IsMachineNotFoundError (some e) = true) :
    (d.Reconcile ctx p node).err = none ∧
    (d.Reconcile ctx p node).result = { Requeue := false, RequeueAfter := 0 } ∧
    (d.Reconcile ctx p node).result ≠ { Requeue := false, RequeueAfter := 5 * time.Minute } ∧
    (d.Reconcile ctx p node).node = node ∧
    (d.Reconcile ctx p node).node.Annotations = node.Annotations := by
  rw [Reconcile_adapter_error d ctx p node b e hinit hval hon hcp]
  have hhint : ({ Requeue := false, RequeueAfter := 0 } : reconcile.Result) ≠
      { Requeue := false, RequeueAfter := 5 * time.Minute } := by decide
  refine ⟨?_, rfl, hhint, rfl, rfl⟩
  simp [cloudprovider.IgnoreMachineNotFoundError, IsMachineNotFoundError_Errorf, hgone]

/-- Witness for C7: scenario 6 of the specification, the machine of a clean initialized
node has vanished. -/
theorem Reconcile_machine_not_found_swallowed_witness :
    ((driftFailing machineNotFound).Reconcile ctxEnabled defaultProvisioner cleanNode).err =
      none ∧
    ((driftFailing machineNotFound).Reconcile ctxEnabled defaultProvisioner cleanNode).result =
      { Requeue := false, RequeueAfter := 0 } ∧
    ((driftFailing machineNotFound).Reconcile ctxEnabled defaultProvisioner cleanNode).node =
      cleanNode :=
  have h := Reconcile_machine_not_found_swallowed (driftFailing machineNotFound) ctxEnabled
    defaultProvisioner cleanNode false machineNotFound (by decide) (Or.inl (by decide))
    (by decide) rfl (by decide)
  ⟨h.1, h.2.1, h.2.2.2.1⟩

/-- C8, as stated, fails: on a clean initialized node with drift enabled the adapter call is
reached, and when the adapter is throttled Reconcile returns the empty hint (with the
wrapped error), not the 5-minute hint. -/
theorem Reconcile_requeue_counterexample :
    cleanNode.Labels.lookup LabelNodeInitialized = some "true" ∧
    cleanNode.Annotations.lookup VoluntaryDisruptionAnnotationKey = none ∧
    (settings.FromContext ctxEnabled).DriftEnabled = true ∧
    ((driftFailing throttled).Reconcile ctxEnabled defaultProvisioner cleanNode).result =
      { Requeue := false, RequeueAfter := 0 } ∧
    ((driftFailing throttled).Reconcile ctxEnabled defaultProvisioner cleanNode).result ≠
      { Requeue := false, RequeueAfter := 5 * time.Minute } := by
  decide

/-- C8, amended: whenever Reconcile reaches the adapter call (node initialized, no foreign
annotation, DriftEnabled true) and the adapter call returns without an error, whatever its
answer and whether or not a mutation is made, the returned hint is exactly 5 minutes
(300000000000 ns, no immediate requeue). -/
theorem Reconcile_requeue_hint (d : Drift) (ctx : Context) (p : Provisioner) (node : Node)
    (drifted : Bool)
    (hinit : node.Labels.lookup LabelNodeInitialized = some "true")
    (hval : node.Annotations.lookup VoluntaryDisruptionAnnotationKey = none ∨
      node.Annotations.lookup VoluntaryDisruptionAnnotationKey = some "drifted")
    (hon : (settings.FromContext ctx).DriftEnabled = true)
    (hcp : d.cloudProvider.IsMachineDrifted ctx (machine.NewFromNode node) = (drifted, none)) :
    (d.Reconcile ctx p node).result = { Requeue := false, RequeueAfter := 5 * time.Minute } ∧
    (d.Reconcile ctx p node).result.RequeueAfter = 300000000000 := by
  have hres : (d.Reconcile ctx p node).result =
      { Requeue := false, RequeueAfter := 5 * time.Minute } := by
    cases drifted with
    | true =>
      rcases hval with hv | hv
      · rw [Reconcile_mark d ctx p node hinit hv hon hcp]
      · rw [Reconcile_agree d ctx p node true hinit (by simpa using hv) hon hcp]
    | false =>
      rcases hval with hv | hv
      · rw [Reconcile_agree d ctx p node false hinit (by simpa using hv) hon hcp]
      · rw [Reconcile_unmark d ctx p node hinit hv hon hcp]
  refine ⟨hres, ?_⟩
  rw [hres]
  decide

/-- Witness for amended C8: a marked node whose adapter still reports drift makes no
mutation and gets the 5-minute hint. -/
theorem Reconcile_requeue_hint_witness :
    ((driftAnswering true).Reconcile ctxEnabled defaultProvisioner markedNode).result =
      { Requeue := false, RequeueAfter := 5 * time.Minute } ∧
    ((driftAnswering true).Reconcile ctxEnabled defaultProvisioner markedNode).node =
      markedNode :=
  ⟨(Reconcile_requeue_hint (driftAnswering true) ctxEnabled defaultProvisioner markedNode true
    (by decide) (Or.inr (by decide)) (by decide) rfl).1, rfl⟩

/-- C9 (idempotence): for every node, reconciler, context and provisioner, a second
Reconcile call on the node left by the first one, made with the same DriftEnabled value
and an adapter call that gives the same outcome (answer or error) as in the first call,
leaves that node (name, labels and annotations) exactly as the first call left it. -/
theorem Reconcile_idempotent (d d₂ : Drift) (ctx ctx₂ : Context) (p p₂ : Provisioner)
    (node : Node)
    (hset : (settings.FromContext ctx₂).DriftEnabled = (settings.FromContext ctx).DriftEnabled)
    (hcp : d₂.cloudProvider.IsMachineDrifted ctx₂
        (machine.NewFromNode (d.Reconcile ctx p node).node) =
      d.cloudProvider.IsMachineDrifted ctx (machine.NewFromNode node)) :
    (d₂.Reconcile ctx₂ p₂ (d.Reconcile ctx p node).node).node = (d.Reconcile ctx p node).node ∧
    (d₂.Reconcile ctx₂ p₂ (d.Reconcile ctx p node).node).node.Labels =
      (d.Reconcile ctx p node).node.Labels ∧
    (d₂.Reconcile ctx₂ p₂ (d.Reconcile ctx p node).node).node.Annotations =
      (d.Reconcile ctx p node).node.Annotations := by
  have hnode : (d₂.Reconcile ctx₂ p₂ (d.Reconcile ctx p node).node).node =
      (d.Reconcile ctx p node).node := by
    by_cases hinit : node.Labels.lookup LabelNodeInitialized = some "true"
    swap
    · rw [Reconcile_uninitialized d ctx p node hinit,
        Reconcile_uninitialized d₂ ctx₂ p₂ node hinit]
    cases hval : node.Annotations.lookup VoluntaryDisruptionAnnotationKey with
    | none =>
      cases hen : (settings.FromContext ctx).DriftEnabled with
      | false =>
        rw [hen] at hset
        rw [Reconcile_disabled_clean d ctx p node hinit hval hen,
          Reconcile_disabled_clean d₂ ctx₂ p₂ node hinit hval hset]
      | true =>
        rw [hen] at hset
        rcases hout : d.cloudProvider.IsMachineDrifted ctx (machine.NewFromNode node) with
          ⟨drifted, err⟩
        rw [hout] at hcp
        cases err with
        | some e =>
          rw [Reconcile_adapter_error d ctx p node drifted e hinit (Or.inl hval) hen hout]
            at hcp ⊢
          rw [Reconcile_adapter_error d₂ ctx₂ p₂ node drifted e hinit (Or.inl hval) hset hcp]
        | none =>
          cases drifted with
          | false =>
            rw [Reconcile_agree d ctx p node false hinit (by simpa using hval) hen hout]
              at hcp ⊢
            rw [Reconcile_agree d₂ ctx₂ p₂ node false hinit (by simpa using hval) hset hcp]
          | true =>
            rw [Reconcile_mark d ctx p node hinit hval hen hout] at hcp ⊢
            dsimp only at hcp ⊢
            rw [Reconcile_agree d₂ ctx₂ p₂
              { node with
                Annotations := lo.Assign [node.Annotations,
                  GoMap.literal [(VoluntaryDisruptionAnnotationKey,
                    VoluntaryDisruptionDriftedAnnotationValue)]] }
              true hinit (by simp [lookup_Assign_drifted]) hset hcp]
    | some v =>
      by_cases hv : v = VoluntaryDisruptionDriftedAnnotationValue
      swap
      · rw [Reconcile_foreign d ctx p node v hinit hval hv,
          Reconcile_foreign d₂ ctx₂ p₂ node v hinit hval hv]
      subst hv
      cases hen : (settings.FromContext ctx).DriftEnabled with
      | false =>
        rw [hen] at hset
        rw [Reconcile_disabled_marked d ctx p node hinit hval hen]
        dsimp only
        rw [Reconcile_disabled_clean d₂ ctx₂ p₂
          { node with Annotations := node.Annotations.delete VoluntaryDisruptionAnnotationKey }
          hinit (by simp [GoMap.lookup_delete]) hset]
      | true =>
        rw [hen] at hset
        rcases hout : d.cloudProvider.IsMachineDrifted ctx (machine.NewFromNode node) with
          ⟨drifted, err⟩
        rw [hout] at hcp
        cases err with
        | some e =>
          rw [Reconcile_adapter_error d ctx p node drifted e hinit (Or.inr hval) hen hout]
            at hcp ⊢
          rw [Reconcile_adapter_error d₂ ctx₂ p₂ node drifted e hinit (Or.inr hval) hset hcp]
        | none =>
          cases drifted with
          | true =>
            rw [Reconcile_agree d ctx p node true hinit (by simpa using hval) hen hout]
              at hcp ⊢
            rw [Reconcile_agree d₂ ctx₂ p₂ node true hinit (by simpa using hval) hset hcp]
          | false =>
            rw [Reconcile_unmark d ctx p node hinit hval hen hout] at hcp ⊢
            dsimp only at hcp ⊢
            rw [Reconcile_agree d₂ ctx₂ p₂
              { node with
                Annotations := node.Annotations.delete VoluntaryDisruptionAnnotationKey }
              false hinit (by simp [GoMap.lookup_delete]) hset hcp]
  exact ⟨hnode, congrArg Node.Labels hnode, congrArg Node.Annotations hnode⟩

/-- Witness for C9: a marked node whose adapter reports no drift; the first call deletes
the annotation and the second call, with the same context and adapter, changes nothing. -/
theorem Reconcile_idempotent_witness :
    ((driftAnswering false).Reconcile ctxEnabled defaultProvisioner
        ((driftAnswering false).Reconcile ctxEnabled defaultProvisioner markedNode).node).node =
      ((driftAnswering false).Reconcile ctxEnabled defaultProvisioner markedNode).node :=
  (Reconcile_idempotent (driftAnswering false) (driftAnswering false) ctxEnabled ctxEnabled
    defaultProvisioner defaultProvisioner markedNode rfl rfl).1

/-- C10, as stated, fails: a node without the initialization label carries the "drifted"
annotation, DriftEnabled is false, and after one Reconcile call the annotation is still
there. -/
theorem Reconcile_flag_retraction_counterexample :
    unreadyMarkedNode.Annotations.lookup VoluntaryDisruptionAnnotationKey = some "drifted" ∧
    (settings.FromContext ctxDisabled).DriftEnabled = false ∧
    ((driftAnswering true).Reconcile ctxDisabled defaultProvisioner
      unreadyMarkedNode).node.Annotations.lookup VoluntaryDisruptionAnnotationKey =
        some "drifted" := by
  decide

/-- C10, amended: for every initialized node whose VoluntaryDisruption annotation is
"drifted", when DriftEnabled is false one Reconcile call removes the annotation (and keeps
every other annotation), and a second Reconcile call with DriftEnabled false on the result
is a no-op: same node, empty hint, no error, nothing logged. -/
theorem Reconcile_flag_retraction (d d₂ : Drift) (ctx ctx₂ : Context) (p p₂ : Provisioner)
    (node : Node)
    (hinit : node.Labels.lookup LabelNodeInitialized = some "true")
    (hval : node.Annotations.lookup VoluntaryDisruptionAnnotationKey = some "drifted")
    (hoff : (settings.FromContext ctx).DriftEnabled = false)
    (hoff₂ : (settings.FromContext ctx₂).DriftEnabled = false) :
    (d.Reconcile ctx p node).node.Annotations.lookup VoluntaryDisruptionAnnotationKey = none ∧
    (∀ k, k ≠ VoluntaryDisruptionAnnotationKey →
      (d.Reconcile ctx p node).node.Annotations.lookup k = node.Annotations.lookup k) ∧
    d₂.Reconcile ctx₂ p₂ (d.Reconcile ctx p node).node =
      ⟨(d.Reconcile ctx p node).node, { Requeue := false, RequeueAfter := 0 }, none, []⟩ := by
  rw [Reconcile_disabled_marked d ctx p node hinit hval hoff]
  have hgone : (node.Annotations.delete VoluntaryDisruptionAnnotationKey).lookup
      VoluntaryDisruptionAnnotationKey = none := by
    simp [GoMap.lookup_delete]
  refine ⟨hgone, ?_, ?_⟩
  · intro k hk
    show (node.Annotations.delete _).lookup _ = _
    simp [GoMap.lookup_delete, hk]
  · exact Reconcile_disabled_clean d₂ ctx₂ p₂
      { node with Annotations := node.Annotations.delete VoluntaryDisruptionAnnotationKey }
      hinit hgone hoff₂

/-- Witness for amended C10: scenario 4 of the specification followed by a second call. -/
theorem Reconcile_flag_retraction_witness :
    ((driftAnswering true).Reconcile ctxDisabled defaultProvisioner
      markedNode).node.Annotations.lookup VoluntaryDisruptionAnnotationKey = none ∧
    ((driftAnswering true).Reconcile ctxDisabled defaultProvisioner
        ((driftAnswering true).Reconcile ctxDisabled defaultProvisioner markedNode).node).node =
      ((driftAnswering true).Reconcile ctxDisabled defaultProvisioner markedNode).node :=
  have h := Reconcile_flag_retraction (driftAnswering true) (driftAnswering true) ctxDisabled
    ctxDisabled defaultProvisioner defaultProvisioner markedNode (by decide) (by decide)
    (by decide) (by decide)
  ⟨h.1, Eq.trans (congrArg Outcome.node h.2.2) rfl⟩


/-- C11 (adapter never consulted on short-circuit paths): when the node is not initialized,
or carries a foreign annotation, or DriftEnabled is false, any two reconcilers (any two
cloud-provider adapters, whatever they answer or fail with) give the same outcome: the
same resulting node, hint, error and log messages. -/
theorem Reconcile_adapter_not_consulted (d₁ d₂ : Drift) (ctx : Context) (p : Provisioner)
    (node : Node)
    (hshort : node.Labels.lookup LabelNodeInitialized ≠ some "true" ∨
      (∃ v, node.Annotations.lookup VoluntaryDisruptionAnnotationKey = some v ∧
        v ≠ "drifted") ∨
      (settings.FromContext ctx).DriftEnabled = false) :
    d₁.Reconcile ctx p node = d₂.Reconcile ctx p node ∧
    (d₁.Reconcile ctx p node).node = (d₂.Reconcile ctx p node).node ∧
    (d₁.Reconcile ctx p node).result = (d₂.Reconcile ctx p node).result ∧
    (d₁.Reconcile ctx p node).err = (d₂.Reconcile ctx p node).err := by
  have hsame : d₁.Reconcile ctx p node = d₂.Reconcile ctx p node := by
    by_cases hinit : node.Labels.lookup LabelNodeInitialized = some "true"
    swap
    · rw [Reconcile_uninitialized d₁ ctx p node hinit,
        Reconcile_uninitialized d₂ ctx p node hinit]
    cases hval : node.Annotations.lookup VoluntaryDisruptionAnnotationKey with
    | none =>
      rcases hshort with h | ⟨v, hv, _⟩ | hoff
      · exact absurd hinit h
      · rw [hval] at hv; cases hv
      · rw [Reconcile_disabled_clean d₁ ctx p node hinit hval hoff,
          Reconcile_disabled_clean d₂ ctx p node hinit hval hoff]
    | some w =>
      by_cases hw : w = VoluntaryDisruptionDriftedAnnotationValue
      swap
      · rw [Reconcile_foreign d₁ ctx p node w hinit hval hw,
          Reconcile_foreign d₂ ctx p node w hinit hval hw]
      subst hw
      rcases hshort with h | ⟨v, hv, hne⟩ | hoff
      · exact absurd hinit h
      · rw [hval] at hv
        exact absurd (Option.some.inj hv).symm hne
      · rw [Reconcile_disabled_marked d₁ ctx p node hinit hval hoff,
          Reconcile_disabled_marked d₂ ctx p node hinit hval hoff]
  exact ⟨hsame, congrArg Outcome.node hsame, congrArg Outcome.result hsame,
    congrArg Outcome.err hsame⟩

/-- Witness for C11: with drift disabled on a marked node, an adapter that reports drift
and an adapter that fails lead to the same outcome. -/
theorem Reconcile_adapter_not_consulted_witness :
    (settings.FromContext ctxDisabled).DriftEnabled = false ∧
    (driftAnswering true).Reconcile ctxDisabled defaultProvisioner markedNode =
      (driftFailing throttled).Reconcile ctxDisabled defaultProvisioner markedNode :=
  ⟨by decide,
    (Reconcile_adapter_not_consulted (driftAnswering true) (driftFailing throttled) ctxDisabled
      defaultProvisioner markedNode (Or.inr (Or.inr (by decide)))).1⟩

/-- C12 (frame): for every input, Reconcile leaves the labels and the name of the node
unchanged, and every annotation whose key is not VoluntaryDisruption reads after the call
exactly as before it: present with the same value, or absent as before. This includes the
path on which the annotation map is rebuilt with lo.Assign. -/
theorem Reconcile_frame (d : Drift) (ctx : Context) (p : Provisioner) (node : Node) :
    (d.Reconcile ctx p node).node.Labels = node.Labels ∧
    (d.Reconcile ctx p node).node.Name = node.Name ∧
    (∀ k, k ≠ VoluntaryDisruptionAnnotationKey →
      (d.Reconcile ctx p node).node.Annotations.lookup k = node.Annotations.lookup k) ∧
    (∀ k, k ≠ VoluntaryDisruptionAnnotationKey →
      (lo.Assign [node.Annotations,
        GoMap.literal [(VoluntaryDisruptionAnnotationKey, "drifted")]]).lookup k =
        node.Annotations.lookup k) := by
  have hassign : ∀ k, k ≠ VoluntaryDisruptionAnnotationKey →
      (lo.Assign [node.Annotations,
        GoMap.literal [(VoluntaryDisruptionAnnotationKey, "drifted")]]).lookup k =
        node.Annotations.lookup k := by
    intro k hk
    simp [lookup_Assign_drifted, hk]
  rcases Reconcile_node_cases d ctx p node with h | ⟨_, h⟩ | ⟨_, h⟩
  · rw [h]
    exact ⟨rfl, rfl, fun _ _ => rfl, hassign⟩
  · rw [h]
    refine ⟨rfl, rfl, ?_, hassign⟩
    intro k hk
    show (node.Annotations.delete _).lookup _ = _
    simp [GoMap.lookup_delete, hk]
  · rw [h]
    exact ⟨rfl, rfl, hassign, hassign⟩


/-- C13, as stated, fails: on a clean initialized node with drift enabled, the adapter fails
with `context.Canceled`, which is not a machine-not-found error, and the error Reconcile
returns is not that error but a new error wrapping it, with the message
"getting drift for node, context canceled". -/
theorem Reconcile_cancellation_counterexample :
    cleanNode.Labels.lookup LabelNodeInitialized = some "true" ∧
    cleanNode.Annotations.lookup VoluntaryDisruptionAnnotationKey = none ∧
    (settings.FromContext ctxEnabled).DriftEnabled = true ∧
    (driftFailing context.Canceled).cloudProvider.IsMachineDrifted ctxEnabled
      (machine.NewFromNode cleanNode) = (false, some context.Canceled) ∧
    cloudprovider.IsMachineNotFoundError (some context.Canceled) = false ∧
    ((driftFailing context.Canceled).Reconcile ctxEnabled defaultProvisioner cleanNode).err ≠
      some context.Canceled ∧
    ((driftFailing context.Canceled).Reconcile ctxEnabled defaultProvisioner cleanNode).err =
      some (GoError.wrap false "getting drift for node, context canceled"
        context.Canceled) := by
  decide

/-- C13, amended: when the adapter call (reached on an initialized node without a foreign
annotation, with DriftEnabled true) fails with a context-cancellation error that is not
machine-not-found, the error Reconcile returns wraps the adapter error: its cause is the
adapter error, its message is "getting drift for node, " followed by the message of the
adapter error, and `errors.Is` still finds the cancellation in it. Reconcile makes no
mutation to the node and returns the empty hint. -/
theorem Reconcile_cancellation (d : Drift) (ctx : Context) (p : Provisioner) (node : Node)
    (b : Bool) (e : GoError)
    (hinit : node.Labels.lookup LabelNodeInitialized = some "true")
    (hval : node.Annotations.lookup VoluntaryDisruptionAnnotationKey = none ∨
      node.Annotations.lookup VoluntaryDisruptionAnnotationKey = some "drifted")
    (hon : (settings.FromContext ctx).DriftEnabled = true)
    (hcp : d.cloudProvider.IsMachineDrifted ctx (machine.NewFromNode node) = (b, some e))
    (hcancel : errors.Is e context.Canceled = true)
    (hother : cloudprovider.IsMachineNotFoundError (some e) = false) :
    (∃ w, (d.Reconcile ctx p node).err = some w ∧ w.Unwrap = some e ∧
      w.Error = "getting drift for node, " ++ e.Error ∧
      errors.Is w context.Canceled = true) ∧
    (d.Reconcile ctx p node).node = node ∧
    (d.Reconcile ctx p node).result = { Requeue := false, RequeueAfter := 0 } := by
  rw [Reconcile_adapter_error d ctx p node b e hinit hval hon hcp]
  refine ⟨⟨fmt.Errorf "getting drift for node, " e, ?_, rfl, rfl, Is_Errorf _ e _ hcancel⟩,
    rfl, rfl⟩
  simp [cloudprovider.IgnoreMachineNotFoundError, IsMachineNotFoundError_Errorf, hother]

/-- Witness for amended C13: the adapter of a marked node fails with `context.Canceled`. -/
theorem Reconcile_cancellation_witness :
    errors.Is context.Canceled context.Canceled = true ∧
    cloudprovider.IsMachineNotFoundError (some context.Canceled) = false ∧
    (∃ w, ((driftFailing context.Canceled).Reconcile ctxEnabled defaultProvisioner
        markedNode).err = some w ∧ w.Unwrap = some context.Canceled ∧
      w.Error = "getting drift for node, " ++ context.Canceled.Error ∧
      errors.Is w context.Canceled = true) ∧
    ((driftFailing context.Canceled).Reconcile ctxEnabled defaultProvisioner markedNode).node =
      markedNode :=
  have h := Reconcile_cancellation (driftFailing context.Canceled) ctxEnabled
    defaultProvisioner markedNode false context.Canceled (by decide) (Or.inr (by decide))
    (by decide) rfl (by decide) (by decide)
  ⟨by decide, by decide, h.1, h.2.1⟩

/-- C14 (absorbing states): for every finite sequence of Reconcile calls on a node, each
with its own reconciler (adapter outcome), context (DriftEnabled value) and provisioner, a
node that starts uninitialized or with a foreign (present, not "drifted") annotation is,
after every call of the sequence, exactly the node it started as (same labels and
annotations), and every call returns the empty hint and no error. Every call of the
sequence returns. -/
theorem reconcileAll_absorbing (calls : List Call) (node : Node)
    (hstart : node.Labels.lookup LabelNodeInitialized ≠ some "true" ∨
      ∃ v, node.Annotations.lookup VoluntaryDisruptionAnnotationKey = some v ∧
        v ≠ "drifted") :
    (reconcileAll calls node).length = calls.length ∧
    ∀ out ∈ reconcileAll calls node,
      out.node = node ∧ out.node.Labels = node.Labels ∧
      out.node.Annotations = node.Annotations ∧
      out.result = { Requeue := false, RequeueAfter := 0 } ∧ out.err = none := by
  induction calls with
  | nil => exact ⟨rfl, fun out hout => absurd hout (List.not_mem_nil out)⟩
  | cons c cs ih =>
    have hstep := Reconcile_absorbed c.drift c.ctx c.provisioner node hstart
    have hrun : reconcileAll (c :: cs) node =
        (⟨node, {}, none, []⟩ : Outcome) :: reconcileAll cs node := by
      simp only [reconcileAll, hstep]
    rw [hrun]
    refine ⟨by simp [ih.1], ?_⟩
    intro out hout
    rcases List.mem_cons.1 hout with h | h
    · subst h
      exact ⟨rfl, rfl, rfl, rfl, rfl⟩
    · exact ih.2 out h

/-- Witness for C14: three calls with changing settings and adapters on a node annotated
by a peer controller. -/
theorem reconcileAll_absorbing_witness :
    (peerNode.Annotations.lookup VoluntaryDisruptionAnnotationKey = some "expired" ∧
      "expired" ≠ "drifted") ∧
    (reconcileAll mixedCalls peerNode).length = 3 ∧
    ∀ out ∈ reconcileAll mixedCalls peerNode,
      out.node = peerNode ∧ out.node.Labels = peerNode.Labels ∧
      out.node.Annotations = peerNode.Annotations ∧
      out.result = { Requeue := false, RequeueAfter := 0 } ∧ out.err = none :=
  ⟨⟨by decide, by decide⟩,
    reconcileAll_absorbing mixedCalls peerNode (Or.inr ⟨"expired", by decide, by decide⟩)⟩


/-- C15 (convergence to the adapter answer): on every input on which Reconcile returns the
5-minute hint, the adapter call returned no error, and the resulting node has
VoluntaryDisruption = "drifted" exactly when the adapter reported drift, and has no
VoluntaryDisruption annotation exactly when the adapter reported no drift. -/
theorem Reconcile_converges_to_adapter (d : Drift) (ctx : Context) (p : Provisioner)
    (node : Node)
    (hhint : (d.Reconcile ctx p node).result =
      { Requeue := false, RequeueAfter := 5 * time.Minute }) :
    (d.cloudProvider.IsMachineDrifted ctx (machine.NewFromNode node)).2 = none ∧
    ((d.Reconcile ctx p node).node.Annotations.lookup VoluntaryDisruptionAnnotationKey =
        some "drifted" ↔
      (d.cloudProvider.IsMachineDrifted ctx (machine.NewFromNode node)).1 = true) ∧
    ((d.Reconcile ctx p node).node.Annotations.lookup VoluntaryDisruptionAnnotationKey =
        none ↔
      (d.cloudProvider.IsMachineDrifted ctx (machine.NewFromNode node)).1 = false) := by
  obtain ⟨hinit, hval, hon, herr⟩ := Reconcile_requeue_only_after_answer d ctx p node hhint
  rcases hcp : d.cloudProvider.IsMachineDrifted ctx (machine.NewFromNode node) with
    ⟨drifted, err⟩
  rw [hcp] at herr
  simp only at herr
  subst herr
  have hmarked : ∀ n : Node, n.Annotations.lookup VoluntaryDisruptionAnnotationKey =
      some VoluntaryDisruptionDriftedAnnotationValue →
      (n.Annotations.lookup VoluntaryDisruptionAnnotationKey = some "drifted" ↔
        (true, (none : Option GoError)).1 = true) ∧
      (n.Annotations.lookup VoluntaryDisruptionAnnotationKey = none ↔
        (true, (none : Option GoError)).1 = false) := by
    intro n hn
    rw [hn]
    exact ⟨⟨fun _ => rfl, fun _ => rfl⟩, ⟨fun h => (by cases h), fun h => (by cases h)⟩⟩
  have hclean : ∀ n : Node, n.Annotations.lookup VoluntaryDisruptionAnnotationKey = none →
      (n.Annotations.lookup VoluntaryDisruptionAnnotationKey = some "drifted" ↔
        (false, (none : Option GoError)).1 = true) ∧
      (n.Annotations.lookup VoluntaryDisruptionAnnotationKey = none ↔
        (false, (none : Option GoError)).1 = false) := by
    intro n hn
    rw [hn]
    exact ⟨⟨fun h => (by cases h), fun h => (by cases h)⟩, ⟨fun _ => rfl, fun _ => rfl⟩⟩
  refine ⟨rfl, ?_⟩
  cases drifted with
  | true =>
    rcases hval with hv | hv
    · rw [Reconcile_mark d ctx p node hinit hv hon hcp]
      exact hmarked _ (by simp [lookup_Assign_drifted])
    · rw [Reconcile_agree d ctx p node true hinit (by simpa using hv) hon hcp]
      exact hmarked _ hv
  | false =>
    rcases hval with hv | hv
    · rw [Reconcile_agree d ctx p node false hinit (by simpa using hv) hon hcp]
      exact hclean _ hv
    · rw [Reconcile_unmark d ctx p node hinit hv hon hcp]
      exact hclean _ (by simp [GoMap.lookup_delete])

/-- Witness for C15: a marked node whose adapter reports no drift gets the 5-minute hint
and ends without the annotation. -/
theorem Reconcile_converges_to_adapter_witness :
    ((driftAnswering false).Reconcile ctxEnabled defaultProvisioner markedNode).result =
      { Requeue := false, RequeueAfter := 5 * time.Minute } ∧
    ((driftAnswering false).cloudProvider.IsMachineDrifted ctxEnabled
      (machine.NewFromNode markedNode)).1 = false ∧
    ((driftAnswering false).Reconcile ctxEnabled defaultProvisioner
      markedNode).node.Annotations.lookup VoluntaryDisruptionAnnotationKey = none :=
  have h := Reconcile_converges_to_adapter (driftAnswering false) ctxEnabled
    defaultProvisioner markedNode (by decide)
  ⟨by decide, rfl, h.2.2.2 rfl⟩

/-- C16 (mark/unmark round trip): for an initialized node without a VoluntaryDisruption
annotation and with DriftEnabled true, a Reconcile call whose adapter answers drifted puts
the annotation "drifted" on the node, and a following Reconcile call, either with
DriftEnabled true and an adapter answering not drifted or with DriftEnabled false, leaves
an annotation map that holds exactly the key/value pairs of the original one (and is the
original map itself unless that one was nil); labels and name are the original ones. -/
theorem Reconcile_mark_unmark_round_trip (d d₂ : Drift) (ctx ctx₂ : Context)
    (p p₂ : Provisioner) (node : Node)
    (hinit : node.Labels.lookup LabelNodeInitialized = some "true")
    (habs : node.Annotations.lookup VoluntaryDisruptionAnnotationKey = none)
    (hon : (settings.FromContext ctx).DriftEnabled = true)
    (hcp : d.cloudProvider.IsMachineDrifted ctx (machine.NewFromNode node) = (true, none))
    (hsecond : ((settings.FromContext ctx₂).DriftEnabled = true ∧
        d₂.cloudProvider.IsMachineDrifted ctx₂
          (machine.NewFromNode (d.Reconcile ctx p node).node) = (false, none)) ∨
      (settings.FromContext ctx₂).DriftEnabled = false) :
    (d.Reconcile ctx p node).node.Annotations.lookup VoluntaryDisruptionAnnotationKey =
      some "drifted" ∧
    (∀ k, (d₂.Reconcile ctx₂ p₂ (d.Reconcile ctx p node).node).node.Annotations.lookup k =
      node.Annotations.lookup k) ∧
    (node.Annotations ≠ GoMap.nil →
      (d₂.Reconcile ctx₂ p₂ (d.Reconcile ctx p node).node).node.Annotations =
        node.Annotations) ∧
    (d₂.Reconcile ctx₂ p₂ (d.Reconcile ctx p node).node).node.Labels = node.Labels ∧
    (d₂.Reconcile ctx₂ p₂ (d.Reconcile ctx p node).node).node.Name = node.Name := by
  have hmarked : (lo.Assign [node.Annotations,
      GoMap.literal [(VoluntaryDisruptionAnnotationKey,
        VoluntaryDisruptionDriftedAnnotationValue)]]).lookup
      VoluntaryDisruptionAnnotationKey = some VoluntaryDisruptionDriftedAnnotationValue := by
    simp [lookup_Assign_drifted]
  have hback : ∀ k, ((lo.Assign [node.Annotations,
      GoMap.literal [(VoluntaryDisruptionAnnotationKey,
        VoluntaryDisruptionDriftedAnnotationValue)]]).delete
      VoluntaryDisruptionAnnotationKey).lookup k = node.Annotations.lookup k := by
    intro k
    rw [GoMap.lookup_delete, lookup_Assign_drifted]
    by_cases hk : k = VoluntaryDisruptionAnnotationKey
    · rw [hk, habs]; simp
    · simp [hk]
  have hsecondNode : (d₂.Reconcile ctx₂ p₂ (d.Reconcile ctx p node).node).node =
      { node with
        Annotations := (lo.Assign [node.Annotations,
          GoMap.literal [(VoluntaryDisruptionAnnotationKey,
            VoluntaryDisruptionDriftedAnnotationValue)]]).delete
          VoluntaryDisruptionAnnotationKey } := by
    rw [Reconcile_mark d ctx p node hinit habs hon hcp] at hsecond ⊢
    dsimp only at hsecond ⊢
    rcases hsecond with ⟨hon₂, hcp₂⟩ | hoff₂
    · rw [Reconcile_unmark d₂ ctx₂ p₂
        { node with
          Annotations := lo.Assign [node.Annotations,
            GoMap.literal [(VoluntaryDisruptionAnnotationKey,
              VoluntaryDisruptionDriftedAnnotationValue)]] }
        hinit hmarked hon₂ hcp₂]
    · rw [Reconcile_disabled_marked d₂ ctx₂ p₂
        { node with
          Annotations := lo.Assign [node.Annotations,
            GoMap.literal [(VoluntaryDisruptionAnnotationKey,
              VoluntaryDisruptionDriftedAnnotationValue)]] }
        hinit hmarked hoff₂]
  refine ⟨?_, ?_, ?_, ?_, ?_⟩
  · rw [Reconcile_mark d ctx p node hinit habs hon hcp]
    exact hmarked
  · intro k
    rw [hsecondNode]
    exact hback k
  · intro hnil
    rw [hsecondNode]
    cases hm : node.Annotations with
    | nil => exact absurd hm hnil
    | made f =>
      rw [hm] at hback
      show (lo.Assign _).delete _ = _
      have hfun := fun k => hback k
      simp only [lo.Assign, GoMap.delete, GoMap.lookup] at hfun ⊢
      congr 1
      funext k
      exact hfun k
  · rw [hsecondNode]
  · rw [hsecondNode]

/-- Witness for C16: an initialized node with one unrelated annotation is marked and then
unmarked by an adapter that changes its answer. -/
theorem Reconcile_mark_unmark_round_trip_witness :
    ((driftAnswering true).Reconcile ctxEnabled defaultProvisioner
      teamNode).node.Annotations.lookup VoluntaryDisruptionAnnotationKey = some "drifted" ∧
    ((driftAnswering false).Reconcile ctxEnabled defaultProvisioner
      ((driftAnswering true).Reconcile ctxEnabled defaultProvisioner
        teamNode).node).node.Annotations.lookup VoluntaryDisruptionAnnotationKey =
      teamNode.Annotations.lookup VoluntaryDisruptionAnnotationKey ∧
    ((driftAnswering false).Reconcile ctxEnabled defaultProvisioner
      ((driftAnswering true).Reconcile ctxEnabled defaultProvisioner
        teamNode).node).node.Annotations.lookup "team" = teamNode.Annotations.lookup "team" ∧
    ((driftAnswering false).Reconcile ctxEnabled defaultProvisioner
      ((driftAnswering true).Reconcile ctxEnabled defaultProvisioner
        teamNode).node).node.Annotations = teamNode.Annotations :=
  have h := Reconcile_mark_unmark_round_trip (driftAnswering true) (driftAnswering false)
    ctxEnabled ctxEnabled defaultProvisioner defaultProvisioner teamNode (by decide)
    (by decide) (by decide) rfl (Or.inl ⟨by decide, rfl⟩)
  ⟨h.1, h.2.1 VoluntaryDisruptionAnnotationKey, h.2.1 "team",
    h.2.2.1 (fun hnil => GoMap.noConfusion hnil)⟩

end Karpenter
